import Mathlib

/-!
Verification development for the RBAC role-mining service.

This file gives a shallow embedding of the role-generation core of the
repository (app/services/role_generator.py, app/services/enhanced_role_generator.py,
app/services/data_processor.py, app/core/llm_client.py, app/core/prompt_manager.py,
app/core/prompt_manager_enhanced.py, app/models/domain.py, app/models/enhanced_models.py)
and proves properties of the embedded operations.

Modelling conventions:
- Python dicts keyed by strings (the generation caches, the entitlement catalog,
  result mappings) are association lists with overwrite-in-place insertion,
  mirroring dict assignment semantics observable through key lookup.
- Raised exceptions are `Except.error`; a stateful method returns a pair of
  its result (`Except`) and the post-state of the mutated mapping.
- `datetime.now()` is an abstract tick carried in the environment (`Env.now`).
- The Azure OpenAI transport (`AzureOpenAIClient.generate_role`) and the
  standard-library JSON parser (`json.loads`) are external collaborators at the
  network/stdlib boundary; they are parameters (oracles) of the embedding.
  Everything the repository itself computes around them is embedded concretely.
-/

namespace RBAC

/-! ### Association-list operations modelling Python dict access
`lookupKey` models `d[k]` / `k in d` / `d.get(k)`; `insertKey` models `d[k] = v`
(overwrite in place when the key exists, append otherwise). -/

def lookupKey {α : Type} : List (String × α) → String → Option α
  | [], _ => none
  | (k', v) :: rest, k => if k' = k then some v else lookupKey rest k

def insertKey {α : Type} : List (String × α) → String → α → List (String × α)
  | [], k, v => [(k, v)]
  | (k', v') :: rest, k, v =>
    if k' = k then (k, v) :: rest else (k', v') :: insertKey rest k v

theorem lookupKey_insertKey_self {α : Type} (c : List (String × α)) (k : String) (v : α) :
    lookupKey (insertKey c k v) k = some v := by
  induction c with
  | nil => simp [insertKey, lookupKey]
  | cons hd tl ih =>
    obtain ⟨k', v'⟩ := hd
    by_cases h : k' = k
    · simp [insertKey, lookupKey, h]
    · simp [insertKey, lookupKey, h, ih]

theorem lookupKey_insertKey_ne {α : Type} (c : List (String × α)) (k j : String) (v : α)
    (hne : j ≠ k) : lookupKey (insertKey c k v) j = lookupKey c j := by
  induction c with
  | nil => simp [insertKey, lookupKey, Ne.symm hne]
  | cons hd tl ih =>
    obtain ⟨k', v'⟩ := hd
    by_cases h : k' = k
    · subst h
      simp [insertKey, lookupKey, Ne.symm hne]
    · simp [insertKey, lookupKey, h, ih]

/-! ### Domain models (app/models/domain.py) -/

/-- RiskLevel enum (`domain.py`): LOW, MEDIUM, HIGH, CRITICAL. -/
inductive RiskLevel : Type
  | LOW
  | MEDIUM
  | HIGH
  | CRITICAL
deriving DecidableEq, Repr

/-- Conversion `RiskLevel(value)`: Python enum lookup by value succeeds only on
the exact member strings and raises `ValueError` otherwise (modelled as `none`). -/
def riskLevelOfString : String → Option RiskLevel
  | "LOW" => some RiskLevel.LOW
  | "MEDIUM" => some RiskLevel.MEDIUM
  | "HIGH" => some RiskLevel.HIGH
  | "CRITICAL" => some RiskLevel.CRITICAL
  | _ => none

/-- Entitlement dataclass (`domain.py`). -/
structure Entitlement : Type where
  id : String
  name : String
  description : String
deriving DecidableEq, Repr

/-- UserSummary dataclass (`domain.py`). -/
structure UserSummary : Type where
  total_users : Nat
  top_job_titles : List String
  top_departments : List String
  job_title_distribution : List (String × Nat)
  department_distribution : List (String × Nat)
deriving DecidableEq, Repr

/-- Image of `UserSummary.to_dict` (`domain.py`): top lists truncated to 5 / 3. -/
structure UserSummaryDict : Type where
  total_users : Nat
  top_job_titles : List String
  top_departments : List String
  job_title_distribution : List (String × Nat)
  department_distribution : List (String × Nat)
deriving DecidableEq, Repr

def UserSummary.to_dict (u : UserSummary) : UserSummaryDict :=
  { total_users := u.total_users
    top_job_titles := u.top_job_titles.take 5
    top_departments := u.top_departments.take 3
    job_title_distribution := u.job_title_distribution
    department_distribution := u.department_distribution }

/-- ClusterData dataclass (`domain.py`); `__post_init__` sets
`entitlement_count = len(core_entitlements)`, captured by `mkClusterData`. -/
structure ClusterData : Type where
  cluster_id : String
  core_entitlements : List Entitlement
  user_summary : UserSummary
  entitlement_count : Nat
deriving DecidableEq, Repr

/-- Constructor call `ClusterData(cluster_id=..., core_entitlements=..., user_summary=...)`
followed by `__post_init__`. -/
def mkClusterData (cid : String) (ents : List Entitlement) (us : UserSummary) : ClusterData :=
  { cluster_id := cid
    core_entitlements := ents
    user_summary := us
    entitlement_count := ents.length }

/-- GeneratedRole dataclass (`domain.py`); `reviewed`/`approved` default to false. -/
structure GeneratedRole : Type where
  cluster_id : String
  role_name : String
  description : String
  rationale : String
  risk_level : RiskLevel
  entitlements : List Entitlement
  user_summary : UserSummary
  generated_at : Nat
  reviewed : Bool := false
  approved : Bool := false
deriving DecidableEq, Repr

/-! ### Enhanced models (app/models/enhanced_models.py) -/

/-- RoleStyle enum (`enhanced_models.py`). -/
inductive RoleStyle : Type
  | BUSINESS_FOCUSED
  | TECHNICAL_FOCUSED
  | HIERARCHICAL_FOCUSED
deriving DecidableEq, Repr

/-- RoleOption dataclass (`enhanced_models.py`). -/
structure RoleOption : Type where
  option_number : Int
  role_name : String
  style : RoleStyle
  description : String
  rationale : String
deriving DecidableEq, Repr

/-- GeneratedRoleSet dataclass (`enhanced_models.py`); note `risk_level` is kept
as a raw string and `user_summary` is stored as the dict produced by
`UserSummary.to_dict` (see `enhanced_role_generator.py` line 87). -/
structure GeneratedRoleSet : Type where
  cluster_id : String
  role_options : List RoleOption
  recommended_option : Int
  recommendation_reason : String
  risk_level : String
  entitlements : List Entitlement
  user_summary : UserSummaryDict
  generated_at : Nat
  selected_option : Option Int := none
  reviewed : Bool := false
  approved : Bool := false
  feedback : Option String := none
deriving DecidableEq, Repr

/-! ### Data processor (app/services/data_processor.py) -/

/-- Catalog entry of `entitlement_metadata.json`: a mapping with name/description. -/
structure EntMeta : Type where
  name : String
  description : String
deriving DecidableEq, Repr

/-- One row of `cluster_summary.csv` as read by pandas: the columns
`Cluster_ID` and `Core_Entitlements` (a comma-separated id list in one cell). -/
structure ClusterRow : Type where
  cluster_id : String
  core_entitlements : String
deriving DecidableEq, Repr

/-- One row of `user_metadata.csv`: columns `Cluster_ID`, `Job_Title`, `Department`. -/
structure UserRow : Type where
  cluster_id : String
  job_title : String
  department : String
deriving DecidableEq, Repr

/-- In-memory state of `DataProcessor` after `load_data_files`: missing files
leave the corresponding table unloaded (`none` for the data frames, `[]` for the
catalog dict which is initialized empty). -/
structure DataProcessor : Type where
  entitlement_metadata : List (String × EntMeta)
  cluster_summary : Option (List ClusterRow)
  user_metadata : Option (List UserRow)
deriving DecidableEq, Repr

/-- Distinct values of a list in order of first occurrence (the grouping step
of `pandas.Series.value_counts`). -/
def firstOccurrences (l : List String) : List String :=
  l.foldl (fun acc x => if x ∈ acc then acc else acc ++ [x]) []

/-- Stable insertion into a count-descending list: keeps earlier entries first
on equal counts. -/
def insertByCountDesc (x : String × Nat) : List (String × Nat) → List (String × Nat)
  | [] => [x]
  | y :: ys => if y.2 > x.2 then y :: insertByCountDesc x ys else x :: y :: ys

/-- Frequency table of `pandas.Series.value_counts().to_dict()`: counts of each
value, ordered by descending count. -/
def value_counts (l : List String) : List (String × Nat) :=
  ((firstOccurrences l).map (fun k => (k, l.count k))).foldr insertByCountDesc []

/-- DataProcessor._create_user_summary (`data_processor.py` lines 86-104). -/
def create_user_summary (users : List UserRow) : UserSummary :=
  let job_titles := value_counts (users.map (fun u => u.job_title))
  let departments := value_counts (users.map (fun u => u.department))
  { total_users := users.length
    top_job_titles := (job_titles.map (fun p => p.1)).take 5
    top_departments := (departments.map (fun p => p.1)).take 3
    job_title_distribution := job_titles
    department_distribution := departments }

/-- Whitespace test of Python `str.strip()` (space, tab, newline, carriage
return, vertical tab, form feed). -/
def isPySpace (c : Char) : Bool :=
  (c == ' ') || (c == '\t') || (c == '\n') || (c == '\r') || (c == '\x0b') || (c == '\x0c')

/-- Python `str.strip()`: drop leading and trailing whitespace. -/
def pyStrip (s : String) : String :=
  String.mk (((s.toList.dropWhile isPySpace).reverse.dropWhile isPySpace).reverse)

/-- Splitting a character list at every comma; the empty input gives one empty
field, matching Python list-of-fields semantics. -/
def splitCommaChars : List Char → List (List Char)
  | [] => [[]]
  | c :: cs =>
    match splitCommaChars cs with
    | [] => [[c]]
    | h :: t => if c == ',' then [] :: h :: t else (c :: h) :: t

/-- Python `s.split(",")`: fields between commas, never merged, `""` giving
`[""]`. -/
def pySplitComma (s : String) : List String :=
  (splitCommaChars s.toList).map (fun l => String.mk l)

/-- DataProcessor.process_cluster (`data_processor.py` lines 51-84).
Looks up the first cluster row matching `Cluster_ID`, splits the
`Core_Entitlements` cell on commas (`split(',')`), strips each id
(`strip()`), keeps only ids present in the catalog (the lenient join), and
aggregates the matching user rows.
Accessing an unloaded table (`None` data frame) raises inside the method body
and is re-raised as `DataProcessingException`, hence `Except.error`. -/
def process_cluster (dp : DataProcessor) (cluster_id : String) : Except String ClusterData :=
  match dp.cluster_summary with
  | none => Except.error "Cluster processing failed: cluster summary not loaded"
  | some rows =>
    match rows.find? (fun r => r.cluster_id == cluster_id) with
    | none => Except.error ("Cluster processing failed: Cluster " ++ cluster_id ++ " not found")
    | some row =>
      let entitlement_ids := (pySplitComma row.core_entitlements).map pyStrip
      let entitlements := entitlement_ids.filterMap (fun ent_id =>
        match lookupKey dp.entitlement_metadata ent_id with
        | some ent_data =>
          some { id := ent_id, name := ent_data.name, description := ent_data.description :
                 Entitlement }
        | none => none)
      match dp.user_metadata with
      | none => Except.error "Cluster processing failed: user metadata not loaded"
      | some users =>
        let cluster_users := users.filter (fun u => u.cluster_id == cluster_id)
        Except.ok (mkClusterData cluster_id entitlements (create_user_summary cluster_users))

/-- DataProcessor.get_all_cluster_ids (`data_processor.py` lines 106-110). -/
def get_all_cluster_ids (dp : DataProcessor) : List String :=
  match dp.cluster_summary with
  | some rows => rows.map (fun r => r.cluster_id)
  | none => []

/-! ### Prompt builders (app/core/prompt_manager.py, app/core/prompt_manager_enhanced.py)
The f-string templates are reproduced line by line; literal braces of the JSON
example block are written with character escapes. -/

/-- Entitlement listing shared by both templates: one line per entitlement in
snapshot order. -/
def entitlementsText (ents : List Entitlement) : String :=
  String.intercalate "\n"
    (ents.map (fun e => "   - " ++ e.id ++ ": " ++ e.name ++ " - " ++ e.description))

/-- Job-title fragment: comma-join of the top 5, or a placeholder when empty. -/
def jobTitlesText (u : UserSummary) : String :=
  if u.top_job_titles.isEmpty then "Not specified"
  else String.intercalate ", " (u.top_job_titles.take 5)

/-- Department fragment: comma-join of the top 3, or a placeholder when empty. -/
def departmentsText (u : UserSummary) : String :=
  if u.top_departments.isEmpty then "Not specified"
  else String.intercalate ", " (u.top_departments.take 3)

/-- PromptManager.create_role_generation_prompt (`prompt_manager.py` lines 11-66). -/
def create_role_generation_prompt (cluster_data : ClusterData) : String :=
  String.intercalate "\n"
    [ ""
    , "You are analyzing a cluster of users with similar access patterns to create an RBAC role."
    , ""
    , "CLUSTER INFORMATION:"
    , "- Cluster ID: " ++ cluster_data.cluster_id
    , "- Total Users: " ++ toString cluster_data.user_summary.total_users
    , "- Common Job Titles: " ++ jobTitlesText cluster_data.user_summary
    , "- Primary Departments: " ++ departmentsText cluster_data.user_summary
    , ""
    , "ENTITLEMENTS IN THIS CLUSTER:"
    , entitlementsText cluster_data.core_entitlements
    , ""
    , "Based on this information, generate a role definition with the following:"
    , ""
    , "1. **Role Name**: Create a concise, professional role name (3-5 words) that reflects the primary function and level of access."
    , "   - Use standard naming conventions (e.g., \"Senior Financial Analyst\", \"Healthcare Data Administrator\")"
    , "   - Avoid generic names like \"User Role\" or \"Access Group\""
    , ""
    , "2. **Description**: Write a 2-3 sentence description that:"
    , "   - Explains the primary purpose of this role"
    , "   - Identifies the key responsibilities"
    , "   - Mentions the typical user profile"
    , ""
    , "3. **Rationale**: Provide a 2-3 sentence business and security justification that:"
    , "   - Explains why this role grouping makes sense from a business perspective"
    , "   - Addresses the security principle of least privilege"
    , "   - Identifies any compliance or regulatory considerations"
    , ""
    , "4. **Risk Level**: Assess the risk level (LOW, MEDIUM, HIGH, or CRITICAL) based on:"
    , "   - Sensitivity of data accessed"
    , "   - Potential for data modification"
    , "   - Scope of access across systems"
    , "   - Regulatory compliance implications"
    , ""
    , "Respond in JSON format with keys: role_name, description, rationale, risk_level"
    , ""
    , "Consider these factors:"
    , "- Follow the principle of least privilege"
    , "- Ensure the role is cohesive and logical"
    , "- Consider separation of duties where applicable"
    , "- Think about regulatory compliance (HIPAA, SOX, GDPR, etc.)"
    , "" ]

/-- EnhancedPromptManager.create_multi_role_generation_prompt
(`prompt_manager_enhanced.py` lines 11-101). -/
def create_multi_role_generation_prompt (cluster_data : ClusterData) : String :=
  String.intercalate "\n"
    [ ""
    , "You are analyzing a cluster of users with similar access patterns to create RBAC roles."
    , ""
    , "CLUSTER INFORMATION:"
    , "- Cluster ID: " ++ cluster_data.cluster_id
    , "- Total Users: " ++ toString cluster_data.user_summary.total_users
    , "- Common Job Titles: " ++ jobTitlesText cluster_data.user_summary
    , "- Primary Departments: " ++ departmentsText cluster_data.user_summary
    , ""
    , "ENTITLEMENTS IN THIS CLUSTER:"
    , entitlementsText cluster_data.core_entitlements
    , ""
    , "Generate THREE different role options for this cluster, each with a different naming approach:"
    , ""
    , "1. **Business-Focused Role**: Name emphasizes business function and responsibilities"
    , "   - Use business terminology"
    , "   - Focus on what the person does in the organization"
    , "   - Example style: \"Financial Report Analyst\", \"Healthcare Claims Processor\""
    , ""
    , "2. **Technical-Focused Role**: Name emphasizes systems and technical access"
    , "   - Use technical/system terminology"
    , "   - Focus on the systems and data being accessed"
    , "   - Example style: \"ERP System Read User\", \"Medical Database Operator\""
    , ""
    , "3. **Hierarchical-Focused Role**: Name emphasizes seniority and organizational level"
    , "   - Include level indicators (Senior, Lead, Junior, etc.)"
    , "   - Focus on organizational hierarchy and scope"
    , "   - Example style: \"Senior Finance Specialist\", \"Lead Data Administrator\""
    , ""
    , "For EACH of the three role options, provide:"
    , "- role_name: The role name following the specific style"
    , "- description: A 2-3 sentence description of the role\x27s purpose and responsibilities"
    , "- rationale: A 2-3 sentence business and security justification"
    , "- style: The naming style used (business_focused, technical_focused, or hierarchical_focused)"
    , ""
    , "Also provide:"
    , "- recommended_option: Which option (1, 2, or 3) you recommend as most appropriate"
    , "- risk_level: Overall risk assessment (LOW, MEDIUM, HIGH, or CRITICAL)"
    , "- recommendation_reason: Why you recommend that specific option"
    , ""
    , "Respond in JSON format with this structure:"
    , "\x7b"
    , "  \"role_options\": ["
    , "    \x7b"
    , "      \"option_number\": 1,"
    , "      \"role_name\": \"...\","
    , "      \"style\": \"business_focused\","
    , "      \"description\": \"...\","
    , "      \"rationale\": \"...\""
    , "    \x7d,"
    , "    \x7b"
    , "      \"option_number\": 2,"
    , "      \"role_name\": \"...\","
    , "      \"style\": \"technical_focused\","
    , "      \"description\": \"...\","
    , "      \"rationale\": \"...\""
    , "    \x7d,"
    , "    \x7b"
    , "      \"option_number\": 3,"
    , "      \"role_name\": \"...\","
    , "      \"style\": \"hierarchical_focused\","
    , "      \"description\": \"...\","
    , "      \"rationale\": \"...\""
    , "    \x7d"
    , "  ],"
    , "  \"recommended_option\": 1,"
    , "  \"recommendation_reason\": \"...\","
    , "  \"risk_level\": \"...\""
    , "\x7d"
    , ""
    , "Consider these factors:"
    , "- Follow the principle of least privilege"
    , "- Ensure each role name is clear and professional"
    , "- Make each option distinctly different while accurately representing the same access"
    , "- Consider regulatory compliance (HIPAA, SOX, GDPR, etc.)"
    , "- Think about how each naming style would resonate with different stakeholders"
    , "" ]

/-! ### LLM gateway (app/core/llm_client.py) -/

/-- One entry of the JSON `role_options` array as the enhanced service reads it
with `opt_data.get(...)`: each expected key may be absent. -/
structure OptEntry : Type where
  option_number : Option Int := none
  role_name : Option String := none
  style : Option String := none
  description : Option String := none
  rationale : Option String := none
deriving DecidableEq, Repr

/-- The JSON mapping returned by `AzureOpenAIClient.generate_role`, restricted
to the keys the orchestrators read via `.get`; an absent key is `none`. -/
structure LLMMap : Type where
  role_name : Option String := none
  description : Option String := none
  rationale : Option String := none
  risk_level : Option String := none
  role_options : Option (List OptEntry) := none
  recommended_option : Option Int := none
  recommendation_reason : Option String := none
deriving DecidableEq, Repr

def lbrace : Char := Char.ofNat 123

def rbrace : Char := Char.ofNat 125

/-- Search for the greedy regex of `_generate_direct` (an opening brace, any
characters including newlines, a closing brace) over the response body: it
matches exactly when some closing brace occurs after the first opening brace,
and the match then spans from the first opening brace to the last closing
brace. -/
def braceSpan (content : String) : Option String :=
  let cs := content.toList
  match cs.findIdx? (fun c => c == lbrace), cs.reverse.findIdx? (fun c => c == rbrace) with
  | some i, some k =>
    let j := cs.length - 1 - k
    if i < j then some (String.mk ((cs.drop i).take (j - i + 1))) else none
  | _, _ => none

/-- The synthesized fallback mapping of `_generate_direct`
(`llm_client.py` lines 127-132). -/
def mkFallback (prompt content : String) : LLMMap :=
  { role_name := some ("Role_" ++ prompt.take 20)
    description := some (if content.length > 200 then content.take 200 else content)
    rationale := some "Generated from LLM response"
    risk_level := some "MEDIUM" }

/-- JSON-mode parsing of `AzureOpenAIClient._generate_direct`
(`llm_client.py` lines 113-132): try a direct parse of the body, then a parse
of the brace-delimited span, then synthesize the fallback mapping. `jparse`
is the stdlib `json.loads` collaborator (returning `none` on a parse failure
or a non-object result). -/
def generate_direct_json (jparse : String → Option LLMMap) (prompt content : String) : LLMMap :=
  match jparse content with
  | some m => m
  | none =>
    match braceSpan content with
    | some sub =>
      match jparse sub with
      | some m => m
      | none => mkFallback prompt content
    | none => mkFallback prompt content

/-! ### Generation orchestrators (app/services/role_generator.py,
app/services/enhanced_role_generator.py)

The environment carries the loaded `DataProcessor` state, the gateway oracle
(`AzureOpenAIClient.generate_role`, which either raises — `Except.error` — or
returns a JSON mapping) and the current timestamp. A service method returns
its result together with the post-state of the generation cache. -/

structure Env : Type where
  dp : DataProcessor
  llm : String → Except String LLMMap
  now : Nat

abbrev RoleCache := List (String × GeneratedRole)

abbrev RoleSetCache := List (String × GeneratedRoleSet)

/-- The try-block of `RoleGeneratorService.generate_single_role`
(`role_generator.py` lines 40-75): build the snapshot, render the prompt, call
the gateway, convert the mapping into a `GeneratedRole` (the `RiskLevel(...)`
enum call raises on an invalid value), and store it in the cache only on
success. Any failure is re-raised with the cache untouched. -/
def generate_single_role_uncached (env : Env) (cache : RoleCache) (cluster_id : String) :
    Except String GeneratedRole × RoleCache :=
  match process_cluster env.dp cluster_id with
  | Except.error e => (Except.error e, cache)
  | Except.ok cluster_data =>
    let prompt := create_role_generation_prompt cluster_data
    match env.llm prompt with
    | Except.error e => (Except.error ("Failed to generate role: " ++ e), cache)
    | Except.ok llm_response =>
      match riskLevelOfString (llm_response.risk_level.getD "MEDIUM") with
      | none => (Except.error "ValueError: not a valid RiskLevel", cache)
      | some risk =>
        let generated_role : GeneratedRole :=
          { cluster_id := cluster_id
            role_name := llm_response.role_name.getD ("Role_" ++ cluster_id)
            description := llm_response.description.getD ""
            rationale := llm_response.rationale.getD ""
            risk_level := risk
            entitlements := cluster_data.core_entitlements
            user_summary := cluster_data.user_summary
            generated_at := env.now }
        (Except.ok generated_role, insertKey cache cluster_id generated_role)

/-- RoleGeneratorService.generate_single_role (`role_generator.py` lines 32-75):
return the cached record when present and regeneration is not forced, otherwise
run the generation pipeline. -/
def generate_single_role (env : Env) (cache : RoleCache) (cluster_id : String)
    (force_regenerate : Bool) : Except String GeneratedRole × RoleCache :=
  match lookupKey cache cluster_id with
  | some role =>
    if force_regenerate then generate_single_role_uncached env cache cluster_id
    else (Except.ok role, cache)
  | none => generate_single_role_uncached env cache cluster_id

/-- The `style_map.get(style_str, RoleStyle.BUSINESS_FOCUSED)` lookup
(`enhanced_role_generator.py` lines 63-68). -/
def styleOfString (s : String) : RoleStyle :=
  if s = "business_focused" then RoleStyle.BUSINESS_FOCUSED
  else if s = "technical_focused" then RoleStyle.TECHNICAL_FOCUSED
  else if s = "hierarchical_focused" then RoleStyle.HIERARCHICAL_FOCUSED
  else RoleStyle.BUSINESS_FOCUSED

/-- Construction of one `RoleOption` from a raw option entry
(`enhanced_role_generator.py` lines 60-77), with the documented `.get` defaults. -/
def parseRoleOption (cluster_id : String) (o : OptEntry) : RoleOption :=
  { option_number := o.option_number.getD 1
    role_name := o.role_name.getD ("Role_" ++ cluster_id)
    style := styleOfString (o.style.getD "business_focused")
    description := o.description.getD ""
    rationale := o.rationale.getD "" }

/-- The try-block of `EnhancedRoleGeneratorService.generate_multiple_options`
(`enhanced_role_generator.py` lines 43-99); `risk_level` is stored as the raw
string with default MEDIUM, no enum conversion. -/
def generate_multiple_options_uncached (env : Env) (cache : RoleSetCache)
    (cluster_id : String) : Except String GeneratedRoleSet × RoleSetCache :=
  match process_cluster env.dp cluster_id with
  | Except.error e => (Except.error e, cache)
  | Except.ok cluster_data =>
    let prompt := create_multi_role_generation_prompt cluster_data
    match env.llm prompt with
    | Except.error e => (Except.error ("Failed to generate role: " ++ e), cache)
    | Except.ok llm_response =>
      let role_options := (llm_response.role_options.getD []).map (parseRoleOption cluster_id)
      let generated_role_set : GeneratedRoleSet :=
        { cluster_id := cluster_id
          role_options := role_options
          recommended_option := llm_response.recommended_option.getD 1
          recommendation_reason := llm_response.recommendation_reason.getD ""
          risk_level := llm_response.risk_level.getD "MEDIUM"
          entitlements := cluster_data.core_entitlements
          user_summary := cluster_data.user_summary.to_dict
          generated_at := env.now }
      (Except.ok generated_role_set, insertKey cache cluster_id generated_role_set)

/-- EnhancedRoleGeneratorService.generate_multiple_options
(`enhanced_role_generator.py` lines 31-99). -/
def generate_multiple_options (env : Env) (cache : RoleSetCache) (cluster_id : String)
    (force_regenerate : Bool) : Except String GeneratedRoleSet × RoleSetCache :=
  match lookupKey cache cluster_id with
  | some role_set =>
    if force_regenerate then generate_multiple_options_uncached env cache cluster_id
    else (Except.ok role_set, cache)
  | none => generate_multiple_options_uncached env cache cluster_id

/-- RoleGeneratorService.review_role (`role_generator.py` lines 117-127): raise
when the cluster has no generated role, otherwise set the review flags on the
cached record in place. The `feedback` argument is accepted but never stored
(GeneratedRole has no feedback field). -/
def review_role (cache : RoleCache) (cluster_id : String) (approved : Bool)
    (_feedback : Option String) : Except String GeneratedRole × RoleCache :=
  match lookupKey cache cluster_id with
  | none => (Except.error ("No generated role found for cluster " ++ cluster_id), cache)
  | some role =>
    let role' := { role with reviewed := true, approved := approved }
    (Except.ok role', insertKey cache cluster_id role')

/-- EnhancedRoleGeneratorService.review_role_set
(`enhanced_role_generator.py` lines 123-140): additionally stores the feedback
when it is truthy (present and non-empty). -/
def review_role_set (cache : RoleSetCache) (cluster_id : String) (approved : Bool)
    (feedback : Option String) : Except String GeneratedRoleSet × RoleSetCache :=
  match lookupKey cache cluster_id with
  | none => (Except.error ("No generated roles found for cluster " ++ cluster_id), cache)
  | some role_set =>
    let rs1 := { role_set with reviewed := true, approved := approved }
    let rs2 := match feedback with
      | some f => if f ≠ "" then { rs1 with feedback := some f } else rs1
      | none => rs1
    (Except.ok rs2, insertKey cache cluster_id rs2)

/-- EnhancedRoleGeneratorService.select_option
(`enhanced_role_generator.py` lines 101-117): stores the given option number
without validating it against `role_options`. -/
def select_option (cache : RoleSetCache) (cluster_id : String) (selected_option : Int)
    (feedback : Option String) : Except String GeneratedRoleSet × RoleSetCache :=
  match lookupKey cache cluster_id with
  | none => (Except.error ("No generated roles found for cluster " ++ cluster_id), cache)
  | some role_set =>
    let rs1 := { role_set with selected_option := some selected_option }
    let rs2 := match feedback with
      | some f => if f ≠ "" then { rs1 with feedback := some f } else rs1
      | none => rs1
    (Except.ok rs2, insertKey cache cluster_id rs2)

/-- Fan-out over a resolved id list (`tasks = [...]; results = await
asyncio.gather(*tasks)`): run the per-cluster generation for each id in order
and collect the per-task outcomes (the `generate_with_limit` wrapper catches
per-item exceptions and yields `None`, modelled by keeping the `Except`).
The semaphore affects only scheduling; the result list is modelled by this
order-faithful interleaving. -/
def runBatchResults {α : Type}
    (gen : List (String × α) → String → Except String α × List (String × α)) :
    List (String × α) → List String → List (Except String α) × List (String × α)
  | cache, [] => ([], cache)
  | cache, cid :: rest =>
    ((gen cache cid).1 :: (runBatchResults gen (gen cache cid).2 rest).1,
     (runBatchResults gen (gen cache cid).2 rest).2)

/-- The final collection loop (`for cluster_id, result in zip(cluster_ids,
results): if result: generated[cluster_id] = result`): build the result dict,
skipping failed tasks; a duplicate id overwrites its earlier entry exactly as
dict assignment does. -/
def collectResults {α : Type} :
    List String → List (Except String α) → List (String × α) → List (String × α)
  | [], _, generated => generated
  | _ :: _, [], generated => generated
  | cid :: ids, r :: rs, generated =>
    match r with
    | Except.ok v => collectResults ids rs (insertKey generated cid v)
    | Except.error _ => collectResults ids rs generated

/-- Resolution of the target id set shared by both batch entry points
(`role_generator.py` lines 85-91): `process_all` takes every id known to the
processor; otherwise a falsy `cluster_ids` (absent or empty) raises ValueError. -/
def resolveBatchIds (dp : DataProcessor) (cluster_ids : Option (List String))
    (process_all : Bool) : Except String (List String) :=
  if process_all then Except.ok (get_all_cluster_ids dp)
  else
    match cluster_ids with
    | none => Except.error "Either provide cluster_ids or set process_all=True"
    | some [] => Except.error "Either provide cluster_ids or set process_all=True"
    | some ids => Except.ok ids

/-- RoleGeneratorService.generate_batch_roles (`role_generator.py` lines 77-115). -/
def generate_batch_roles (env : Env) (cache : RoleCache) (cluster_ids : Option (List String))
    (process_all : Bool) : Except String (List (String × GeneratedRole)) × RoleCache :=
  match resolveBatchIds env.dp cluster_ids process_all with
  | Except.error e => (Except.error e, cache)
  | Except.ok ids =>
    let out := runBatchResults (fun c cid => generate_single_role env c cid false) cache ids
    (Except.ok (collectResults ids out.1 []), out.2)

/-- EnhancedRoleGeneratorService.batch_generate_multiple
(`enhanced_role_generator.py` lines 142-180). -/
def batch_generate_multiple (env : Env) (cache : RoleSetCache)
    (cluster_ids : Option (List String)) (process_all : Bool) :
    Except String (List (String × GeneratedRoleSet)) × RoleSetCache :=
  match resolveBatchIds env.dp cluster_ids process_all with
  | Except.error e => (Except.error e, cache)
  | Except.ok ids =>
    let out := runBatchResults (fun c cid => generate_multiple_options env c cid false) cache ids
    (Except.ok (collectResults ids out.1 []), out.2)

/-- Discriminator for `Except` results (did the call raise?). -/
def exceptIsOk {ε α : Type} : Except ε α → Bool
  | Except.ok _ => true
  | Except.error _ => false

/-! ### Bounded-concurrency gate of the batch fan-out (`role_generator.py`
lines 93-106, `enhanced_role_generator.py` lines 158-171)

`generate_with_limit` wraps the whole per-cluster generation — and with it the
gateway (LLM) call — in `async with semaphore` where the semaphore is
`asyncio.Semaphore(concurrent_limit)`. We model each batch task by a phase:
not yet holding the semaphore (`pending`), holding it with its gateway call in
flight (`inflight`), and released (`done`). The scheduler may interleave tasks
arbitrarily, but a task can move to `inflight` only when fewer than
`concurrent_limit` tasks hold the semaphore — exactly the counting-semaphore
acquire guard. -/

inductive BatchPhase : Type
  | pending
  | inflight
  | done
deriving DecidableEq, Repr

/-- Number of tasks whose gateway call is currently in flight. -/
def inflightCount (s : List BatchPhase) : Nat :=
  s.countP (fun p => p == BatchPhase.inflight)

/-- One scheduler step of the semaphore-gated batch: a pending task acquires
the gate (allowed only below the limit), or an in-flight task completes and
releases it. -/
inductive SemStep (limit : Nat) : List BatchPhase → List BatchPhase → Prop
  | acquire (l r : List BatchPhase) :
      inflightCount (l ++ BatchPhase.pending :: r) < limit →
      SemStep limit (l ++ BatchPhase.pending :: r) (l ++ BatchPhase.inflight :: r)
  | finish (l r : List BatchPhase) :
      SemStep limit (l ++ BatchPhase.inflight :: r) (l ++ BatchPhase.done :: r)

/-- States reachable by the batch over `ids`, starting with every per-cluster
task queued and no gateway call in flight. -/
def BatchReachable (limit : Nat) (ids : List String) (s : List BatchPhase) : Prop :=
  Relation.ReflTransGen (SemStep limit) (ids.map (fun _ => BatchPhase.pending)) s

/-! ### Inversion and frame lemmas for the generation pipeline -/

theorem generate_single_role_uncached_ok {env : Env} {c : RoleCache} {cid : String}
    {r : GeneratedRole} {c' : RoleCache}
    (h : generate_single_role_uncached env c cid = (Except.ok r, c')) :
    c' = insertKey c cid r ∧ r.reviewed = false ∧ r.approved = false ∧ r.cluster_id = cid := by
  cases hp : process_cluster env.dp cid with
  | error e2 => simp [generate_single_role_uncached, hp] at h
  | ok cd =>
    cases hl : env.llm (create_role_generation_prompt cd) with
    | error e2 => simp [generate_single_role_uncached, hp, hl] at h
    | ok m =>
      cases hr : riskLevelOfString (m.risk_level.getD "MEDIUM") with
      | none => simp [generate_single_role_uncached, hp, hl, hr] at h
      | some risk =>
        simp only [generate_single_role_uncached, hp, hl, hr, Prod.mk.injEq,
          Except.ok.injEq] at h
        obtain ⟨hrole, hcache⟩ := h
        subst hrole
        exact ⟨hcache.symm, rfl, rfl, rfl⟩

theorem generate_single_role_uncached_error {env : Env} {c : RoleCache} {cid : String}
    {e : String} {c' : RoleCache}
    (h : generate_single_role_uncached env c cid = (Except.error e, c')) : c' = c := by
  cases hp : process_cluster env.dp cid with
  | error e2 =>
    simp only [generate_single_role_uncached, hp, Prod.mk.injEq, Except.error.injEq] at h
    exact h.2.symm
  | ok cd =>
    cases hl : env.llm (create_role_generation_prompt cd) with
    | error e2 =>
      simp only [generate_single_role_uncached, hp, hl, Prod.mk.injEq, Except.error.injEq] at h
      exact h.2.symm
    | ok m =>
      cases hr : riskLevelOfString (m.risk_level.getD "MEDIUM") with
      | none =>
        simp only [generate_single_role_uncached, hp, hl, hr, Prod.mk.injEq,
          Except.error.injEq] at h
        exact h.2.symm
      | some risk => simp [generate_single_role_uncached, hp, hl, hr] at h

theorem generate_multiple_options_uncached_ok {env : Env} {c : RoleSetCache} {cid : String}
    {rs : GeneratedRoleSet} {c' : RoleSetCache}
    (h : generate_multiple_options_uncached env c cid = (Except.ok rs, c')) :
    c' = insertKey c cid rs ∧ rs.reviewed = false ∧ rs.approved = false ∧
      rs.selected_option = none ∧ rs.cluster_id = cid := by
  cases hp : process_cluster env.dp cid with
  | error e2 => simp [generate_multiple_options_uncached, hp] at h
  | ok cd =>
    cases hl : env.llm (create_multi_role_generation_prompt cd) with
    | error e2 => simp [generate_multiple_options_uncached, hp, hl] at h
    | ok m =>
      simp only [generate_multiple_options_uncached, hp, hl, Prod.mk.injEq,
        Except.ok.injEq] at h
      obtain ⟨hrs, hcache⟩ := h
      subst hrs
      exact ⟨hcache.symm, rfl, rfl, rfl, rfl⟩

theorem generate_multiple_options_uncached_error {env : Env} {c : RoleSetCache} {cid : String}
    {e : String} {c' : RoleSetCache}
    (h : generate_multiple_options_uncached env c cid = (Except.error e, c')) : c' = c := by
  cases hp : process_cluster env.dp cid with
  | error e2 =>
    simp only [generate_multiple_options_uncached, hp, Prod.mk.injEq, Except.error.injEq] at h
    exact h.2.symm
  | ok cd =>
    cases hl : env.llm (create_multi_role_generation_prompt cd) with
    | error e2 =>
      simp only [generate_multiple_options_uncached, hp, hl, Prod.mk.injEq,
        Except.error.injEq] at h
      exact h.2.symm
    | ok m => simp [generate_multiple_options_uncached, hp, hl] at h

/-- The raised-or-returned outcome of the uncached single-role pipeline does
not depend on the cache contents (the cache is only written, never read, inside
the try-block). -/
theorem generate_single_role_uncached_res (env : Env) (c c2 : RoleCache) (cid : String) :
    (generate_single_role_uncached env c cid).1 = (generate_single_role_uncached env c2 cid).1 := by
  cases hp : process_cluster env.dp cid with
  | error e => simp [generate_single_role_uncached, hp]
  | ok cd =>
    cases hl : env.llm (create_role_generation_prompt cd) with
    | error e => simp [generate_single_role_uncached, hp, hl]
    | ok m =>
      cases hr : riskLevelOfString (m.risk_level.getD "MEDIUM") with
      | none => simp [generate_single_role_uncached, hp, hl, hr]
      | some risk => simp [generate_single_role_uncached, hp, hl, hr]

theorem generate_multiple_options_uncached_res (env : Env) (c c2 : RoleSetCache) (cid : String) :
    (generate_multiple_options_uncached env c cid).1 =
      (generate_multiple_options_uncached env c2 cid).1 := by
  cases hp : process_cluster env.dp cid with
  | error e => simp [generate_multiple_options_uncached, hp]
  | ok cd =>
    cases hl : env.llm (create_multi_role_generation_prompt cd) with
    | error e => simp [generate_multiple_options_uncached, hp, hl]
    | ok m => simp [generate_multiple_options_uncached, hp, hl]

theorem generate_single_role_uncached_frame (env : Env) (c : RoleCache) (cid j : String)
    (hne : j ≠ cid) :
    lookupKey (generate_single_role_uncached env c cid).2 j = lookupKey c j := by
  cases hq : generate_single_role_uncached env c cid with
  | mk res c' =>
    cases res with
    | ok r =>
      obtain ⟨hc, -, -, -⟩ := generate_single_role_uncached_ok hq
      simp [hc, lookupKey_insertKey_ne c cid j r hne]
    | error e =>
      have hc := generate_single_role_uncached_error hq
      simp [hc]

theorem generate_multiple_options_uncached_frame (env : Env) (c : RoleSetCache) (cid j : String)
    (hne : j ≠ cid) :
    lookupKey (generate_multiple_options_uncached env c cid).2 j = lookupKey c j := by
  cases hq : generate_multiple_options_uncached env c cid with
  | mk res c' =>
    cases res with
    | ok rs =>
      obtain ⟨hc, -, -, -, -⟩ := generate_multiple_options_uncached_ok hq
      simp [hc, lookupKey_insertKey_ne c cid j rs hne]
    | error e =>
      have hc := generate_multiple_options_uncached_error hq
      simp [hc]

/-- Generating for one cluster id never disturbs the cache entry of another id. -/
theorem generate_single_role_frame (env : Env) (c : RoleCache) (cid : String) (force : Bool)
    (j : String) (hne : j ≠ cid) :
    lookupKey (generate_single_role env c cid force).2 j = lookupKey c j := by
  cases hl : lookupKey c cid with
  | none =>
    simp only [generate_single_role, hl]
    exact generate_single_role_uncached_frame env c cid j hne
  | some r =>
    cases force with
    | false => simp [generate_single_role, hl]
    | true =>
      simp only [generate_single_role, hl, if_true]
      exact generate_single_role_uncached_frame env c cid j hne

theorem generate_multiple_options_frame (env : Env) (c : RoleSetCache) (cid : String)
    (force : Bool) (j : String) (hne : j ≠ cid) :
    lookupKey (generate_multiple_options env c cid force).2 j = lookupKey c j := by
  cases hl : lookupKey c cid with
  | none =>
    simp only [generate_multiple_options, hl]
    exact generate_multiple_options_uncached_frame env c cid j hne
  | some rs =>
    cases force with
    | false => simp [generate_multiple_options, hl]
    | true =>
      simp only [generate_multiple_options, hl, if_true]
      exact generate_multiple_options_uncached_frame env c cid j hne

/-- The outcome (as opposed to the cache post-state) of a non-forced generate
depends on the cache only through the entry of the requested id. -/
theorem generate_single_role_res_congr (env : Env) (c c2 : RoleCache) (cid : String)
    (hl : lookupKey c cid = lookupKey c2 cid) :
    (generate_single_role env c cid false).1 = (generate_single_role env c2 cid false).1 := by
  cases hc : lookupKey c2 cid with
  | none =>
    rw [hc] at hl
    simp only [generate_single_role, hc, hl]
    exact generate_single_role_uncached_res env c c2 cid
  | some r =>
    rw [hc] at hl
    simp [generate_single_role, hc, hl]

theorem generate_multiple_options_res_congr (env : Env) (c c2 : RoleSetCache) (cid : String)
    (hl : lookupKey c cid = lookupKey c2 cid) :
    (generate_multiple_options env c cid false).1 =
      (generate_multiple_options env c2 cid false).1 := by
  cases hc : lookupKey c2 cid with
  | none =>
    rw [hc] at hl
    simp only [generate_multiple_options, hc, hl]
    exact generate_multiple_options_uncached_res env c c2 cid
  | some rs =>
    rw [hc] at hl
    simp [generate_multiple_options, hc, hl]

/-! ### Concrete fixtures used by the witnesses and counterexamples -/

def usEmpty : UserSummary :=
  { total_users := 0, top_job_titles := [], top_departments := []
    job_title_distribution := [], department_distribution := [] }

def usdEmpty : UserSummaryDict :=
  { total_users := 0, top_job_titles := [], top_departments := []
    job_title_distribution := [], department_distribution := [] }

/-- Loaded processor state: one catalog entry E1, one cluster row C1 whose
entitlement cell also references the unknown id E2, one user row. -/
def dpTest : DataProcessor :=
  { entitlement_metadata := [("E1", { name := "Read DB", description := "Read access to database" })]
    cluster_summary := some [{ cluster_id := "C1", core_entitlements := "E1, E2" }]
    user_metadata := some [{ cluster_id := "C1", job_title := "Analyst", department := "Finance" }] }

def llmOkMap : LLMMap :=
  { role_name := some "Data Reader", description := some "Reads data"
    rationale := some "Least privilege", risk_level := some "LOW" }

/-- Environment whose gateway always answers with a well-formed mapping. -/
def envOk : Env := { dp := dpTest, llm := fun _ => Except.ok llmOkMap, now := 7 }

/-- Environment with nothing loaded and a failing transport. -/
def envFail : Env :=
  { dp := { entitlement_metadata := [], cluster_summary := none, user_metadata := none }
    llm := fun _ => Except.error "connection refused", now := 0 }

def roleCached : GeneratedRole :=
  { cluster_id := "C1", role_name := "Cached Role", description := "old", rationale := "old"
    risk_level := RiskLevel.MEDIUM, entitlements := [], user_summary := usEmpty
    generated_at := 1 }

def rsCached : GeneratedRoleSet :=
  { cluster_id := "C1", role_options := [], recommended_option := 1
    recommendation_reason := "", risk_level := "MEDIUM", entitlements := []
    user_summary := usdEmpty, generated_at := 1 }

/-! ### C1 -/

/-- C1: for a cluster id already present in the cache, `generate` with
`force_regenerate = false` returns the cached record with the cache unchanged —
for every environment, hence in particular without consulting the data
processor or the gateway — and consequently two sequential non-forced
`generate` calls for the same id return identical record content. Both the
single-role and the multi-option orchestrator satisfy this. -/
theorem generate_cached_is_idempotent :
    ∀ (env : Env) (cid : String),
      (∀ (c : RoleCache) (r : GeneratedRole), lookupKey c cid = some r →
        generate_single_role env c cid false = (Except.ok r, c)) ∧
      (∀ (c c' : RoleCache) (r : GeneratedRole),
        generate_single_role env c cid false = (Except.ok r, c') →
        generate_single_role env c' cid false = (Except.ok r, c')) ∧
      (∀ (c : RoleSetCache) (rs : GeneratedRoleSet), lookupKey c cid = some rs →
        generate_multiple_options env c cid false = (Except.ok rs, c)) ∧
      (∀ (c c' : RoleSetCache) (rs : GeneratedRoleSet),
        generate_multiple_options env c cid false = (Except.ok rs, c') →
        generate_multiple_options env c' cid false = (Except.ok rs, c')) := by
  intro env cid
  refine ⟨?_, ?_, ?_, ?_⟩
  · intro c r h
    simp [generate_single_role, h]
  · intro c c' r h
    cases hl : lookupKey c cid with
    | some r0 =>
      simp only [generate_single_role, hl, Bool.false_eq_true, if_false, Prod.mk.injEq,
        Except.ok.injEq] at h
      obtain ⟨h1, h2⟩ := h
      subst h1
      subst h2
      simp [generate_single_role, hl]
    | none =>
      simp only [generate_single_role, hl] at h
      obtain ⟨hc, -, -, -⟩ := generate_single_role_uncached_ok h
      subst hc
      simp [generate_single_role, lookupKey_insertKey_self]
  · intro c rs h
    simp [generate_multiple_options, h]
  · intro c c' rs h
    cases hl : lookupKey c cid with
    | some rs0 =>
      simp only [generate_multiple_options, hl, Bool.false_eq_true, if_false, Prod.mk.injEq,
        Except.ok.injEq] at h
      obtain ⟨h1, h2⟩ := h
      subst h1
      subst h2
      simp [generate_multiple_options, hl]
    | none =>
      simp only [generate_multiple_options, hl] at h
      obtain ⟨hc, -, -, -, -⟩ := generate_multiple_options_uncached_ok h
      subst hc
      simp [generate_multiple_options, lookupKey_insertKey_self]

/-- Witness for C1: a cached record is returned as-is even in an environment
with no loaded data and a failing transport. -/
theorem generate_cached_is_idempotent_witness :
    lookupKey [("C1", roleCached)] "C1" = some roleCached ∧
    generate_single_role envFail [("C1", roleCached)] "C1" false =
      (Except.ok roleCached, [("C1", roleCached)]) ∧
    lookupKey [("C1", rsCached)] "C1" = some rsCached ∧
    generate_multiple_options envFail [("C1", rsCached)] "C1" false =
      (Except.ok rsCached, [("C1", rsCached)]) :=
  ⟨rfl,
   (generate_cached_is_idempotent envFail "C1").1 [("C1", roleCached)] roleCached rfl,
   rfl,
   (generate_cached_is_idempotent envFail "C1").2.2.1 [("C1", rsCached)] rsCached rfl⟩

/-! ### C2 -/

/-- C2: whenever a generate call raises — from snapshot building, the gateway
call, or the record conversion — the exception propagates (the result is the
error) and the cache is exactly what it was before the call, for any
`force_regenerate` value and for both orchestrators. -/
theorem generate_failure_leaves_cache_unchanged :
    ∀ (env : Env) (cid : String) (force : Bool),
      (∀ (c c' : RoleCache) (e : String),
        generate_single_role env c cid force = (Except.error e, c') → c' = c) ∧
      (∀ (c c' : RoleSetCache) (e : String),
        generate_multiple_options env c cid force = (Except.error e, c') → c' = c) := by
  intro env cid force
  constructor
  · intro c c' e h
    cases hl : lookupKey c cid with
    | none =>
      simp only [generate_single_role, hl] at h
      exact generate_single_role_uncached_error h
    | some r =>
      cases force with
      | false => simp [generate_single_role, hl] at h
      | true =>
        simp only [generate_single_role, hl, if_true] at h
        exact generate_single_role_uncached_error h
  · intro c c' e h
    cases hl : lookupKey c cid with
    | none =>
      simp only [generate_multiple_options, hl] at h
      exact generate_multiple_options_uncached_error h
    | some rs =>
      cases force with
      | false => simp [generate_multiple_options, hl] at h
      | true =>
        simp only [generate_multiple_options, hl, if_true] at h
        exact generate_multiple_options_uncached_error h

/-- Witness for C2: forced regeneration over an existing cached record in an
environment whose snapshot build fails raises and leaves the old entry alone
(both services). -/
theorem generate_failure_leaves_cache_unchanged_witness :
    (generate_single_role envFail [("C1", roleCached)] "C1" true).1 =
      Except.error "Cluster processing failed: cluster summary not loaded" ∧
    (generate_single_role envFail [("C1", roleCached)] "C1" true).2 = [("C1", roleCached)] ∧
    (generate_multiple_options envFail [("C1", rsCached)] "C1" true).2 = [("C1", rsCached)] := by
  refine ⟨rfl, ?_, ?_⟩
  · exact (generate_failure_leaves_cache_unchanged envFail "C1" true).1
      [("C1", roleCached)] _ "Cluster processing failed: cluster summary not loaded" rfl
  · exact (generate_failure_leaves_cache_unchanged envFail "C1" true).2
      [("C1", rsCached)] _ "Cluster processing failed: cluster summary not loaded" rfl

/-! ### C3 -/

def roleReviewed : GeneratedRole :=
  { cluster_id := "C1", role_name := "Cached Role", description := "old", rationale := "old"
    risk_level := RiskLevel.MEDIUM, entitlements := [], user_summary := usEmpty
    generated_at := 1, reviewed := true, approved := true }

def usC1 : UserSummary :=
  { total_users := 1, top_job_titles := ["Analyst"], top_departments := ["Finance"]
    job_title_distribution := [("Analyst", 1)], department_distribution := [("Finance", 1)] }

/-- The record produced by a successful regeneration of C1 under `envOk`. -/
def roleRegen : GeneratedRole :=
  { cluster_id := "C1", role_name := "Data Reader", description := "Reads data"
    rationale := "Least privilege", risk_level := RiskLevel.LOW
    entitlements := [{ id := "E1", name := "Read DB", description := "Read access to database" }]
    user_summary := usC1, generated_at := 7 }

/-- Counterexample to C3, along the reachable chain generate → approve →
forced regenerate: the reviewed-and-approved cached record is overwritten by a
fresh record whose `reviewed` and `approved` are both false — the review state
does not persist. -/
theorem regeneration_resets_review_flags_cex :
    (generate_single_role envOk [] "C1" false).2 = [("C1", roleRegen)] ∧
    (review_role [("C1", roleRegen)] "C1" true none).2 =
      [("C1", { roleRegen with reviewed := true, approved := true })] ∧
    (lookupKey [("C1", { roleRegen with reviewed := true, approved := true })] "C1").map
      (fun r => (r.reviewed, r.approved)) = some (true, true) ∧
    (lookupKey (generate_single_role envOk
        [("C1", { roleRegen with reviewed := true, approved := true })] "C1" true).2
      "C1").map (fun r => (r.reviewed, r.approved)) = some (false, false) :=
  ⟨rfl, rfl, rfl, rfl⟩

/-- C3 (amended): a successful generate with `force_regenerate = true`
overwrites the cached record with a freshly constructed record whose `reviewed`
and `approved` fields are reset to their dataclass defaults (false) — the
previous review state does not persist across the overwrite. Holds for both
orchestrators (the multi-option one also resets `selected_option`). -/
theorem regeneration_resets_review_flags :
    ∀ (env : Env) (cid : String),
      (∀ (c c' : RoleCache) (r : GeneratedRole),
        generate_single_role env c cid true = (Except.ok r, c') →
        r.reviewed = false ∧ r.approved = false ∧ lookupKey c' cid = some r) ∧
      (∀ (c c' : RoleSetCache) (rs : GeneratedRoleSet),
        generate_multiple_options env c cid true = (Except.ok rs, c') →
        rs.reviewed = false ∧ rs.approved = false ∧ rs.selected_option = none ∧
        lookupKey c' cid = some rs) := by
  intro env cid
  constructor
  · intro c c' r h
    have h' : generate_single_role_uncached env c cid = (Except.ok r, c') := by
      cases hl : lookupKey c cid with
      | none => simpa only [generate_single_role, hl] using h
      | some r0 => simpa only [generate_single_role, hl, if_true] using h
    obtain ⟨hc, hrev, happ, -⟩ := generate_single_role_uncached_ok h'
    subst hc
    exact ⟨hrev, happ, lookupKey_insertKey_self c cid r⟩
  · intro c c' rs h
    have h' : generate_multiple_options_uncached env c cid = (Except.ok rs, c') := by
      cases hl : lookupKey c cid with
      | none => simpa only [generate_multiple_options, hl] using h
      | some rs0 => simpa only [generate_multiple_options, hl, if_true] using h
    obtain ⟨hc, hrev, happ, hsel, -⟩ := generate_multiple_options_uncached_ok h'
    subst hc
    exact ⟨hrev, happ, hsel, lookupKey_insertKey_self c cid rs⟩

/-- Witness for C3 (amended) at a concrete successful regeneration. -/
theorem regeneration_resets_review_flags_witness :
    generate_single_role envOk [("C1", roleReviewed)] "C1" true =
      (Except.ok roleRegen, [("C1", roleRegen)]) ∧
    roleRegen.reviewed = false ∧ roleRegen.approved = false ∧
    lookupKey [("C1", roleRegen)] "C1" = some roleRegen := by
  have h : generate_single_role envOk [("C1", roleReviewed)] "C1" true =
      (Except.ok roleRegen, [("C1", roleRegen)]) := rfl
  exact ⟨h, (regeneration_resets_review_flags envOk "C1").1 [("C1", roleReviewed)]
    [("C1", roleRegen)] roleRegen h⟩

/-! ### C4 -/

def rsWithOptions : GeneratedRoleSet :=
  { cluster_id := "C1"
    role_options :=
      [ { option_number := 1, role_name := "Business Analyst"
          style := RoleStyle.BUSINESS_FOCUSED, description := "", rationale := "" }
      , { option_number := 2, role_name := "ERP Read User"
          style := RoleStyle.TECHNICAL_FOCUSED, description := "", rationale := "" }
      , { option_number := 3, role_name := "Senior Analyst"
          style := RoleStyle.HIERARCHICAL_FOCUSED, description := "", rationale := "" } ]
    recommended_option := 1, recommendation_reason := "", risk_level := "MEDIUM"
    entitlements := [], user_summary := usdEmpty, generated_at := 1 }

/-- A gateway answer carrying three well-formed options numbered 1, 2, 3. -/
def mMulti : LLMMap :=
  { role_options := some
      [ { option_number := some 1, role_name := some "Business Analyst"
          style := some "business_focused", description := some "d1", rationale := some "r1" }
      , { option_number := some 2, role_name := some "ERP Read User"
          style := some "technical_focused", description := some "d2", rationale := some "r2" }
      , { option_number := some 3, role_name := some "Senior Analyst"
          style := some "hierarchical_focused", description := some "d3", rationale := some "r3" } ]
    recommended_option := some 1, recommendation_reason := some "because"
    risk_level := some "MEDIUM" }

def envMulti : Env := { dp := dpTest, llm := fun _ => Except.ok mMulti, now := 5 }

/-- The role set generated for C1 under `envMulti`. -/
def rsGen : GeneratedRoleSet :=
  { cluster_id := "C1"
    role_options :=
      [ { option_number := 1, role_name := "Business Analyst"
          style := RoleStyle.BUSINESS_FOCUSED, description := "d1", rationale := "r1" }
      , { option_number := 2, role_name := "ERP Read User"
          style := RoleStyle.TECHNICAL_FOCUSED, description := "d2", rationale := "r2" }
      , { option_number := 3, role_name := "Senior Analyst"
          style := RoleStyle.HIERARCHICAL_FOCUSED, description := "d3", rationale := "r3" } ]
    recommended_option := 1, recommendation_reason := "because", risk_level := "MEDIUM"
    entitlements := [{ id := "E1", name := "Read DB", description := "Read access to database" }]
    user_summary := usC1.to_dict, generated_at := 5 }

/-- Counterexample to C4, along the reachable chain generate → select: after
`select_option` with the argument 7 on the generated record whose options are
numbered 1, 2, 3, the cached record has `selected_option = some 7`, which
references no existing `option_number`. -/
theorem select_option_breaks_invariant_cex :
    (generate_multiple_options envMulti [] "C1" false).2 = [("C1", rsGen)] ∧
    (lookupKey (select_option [("C1", rsGen)] "C1" 7 none).2 "C1").map
      (fun rs => (rs.selected_option, rs.role_options.map (fun o => o.option_number))) =
      some (some 7, [1, 2, 3]) ∧
    ([(1 : Int), 2, 3].contains 7) = false :=
  ⟨rfl, rfl, rfl⟩

/-- C4 (amended): `select_option` fails when no record exists; otherwise it
stores exactly the given integer in `selected_option` without validating it
against the record's `role_options` (which it leaves unchanged), so the
invariant that a set `selected_option` references an existing `option_number`
can be violated. -/
theorem select_option_stores_argument_unvalidated :
    ∀ (c : RoleSetCache) (cid : String) (n : Int) (fb : Option String),
      (lookupKey c cid = none →
        select_option c cid n fb =
          (Except.error ("No generated roles found for cluster " ++ cid), c)) ∧
      (∀ rs rs' c2, lookupKey c cid = some rs →
        select_option c cid n fb = (Except.ok rs', c2) →
        rs'.selected_option = some n ∧ rs'.role_options = rs.role_options ∧
        lookupKey c2 cid = some rs') := by
  intro c cid n fb
  constructor
  · intro h
    simp [select_option, h]
  · intro rs rs' c2 h h2
    cases fb with
    | none =>
      simp only [select_option, h, Prod.mk.injEq, Except.ok.injEq] at h2
      obtain ⟨h3, h4⟩ := h2
      subst h3
      subst h4
      exact ⟨rfl, rfl, lookupKey_insertKey_self c cid _⟩
    | some f =>
      by_cases hf : f = ""
      · subst hf
        simp only [select_option, h, ne_eq, not_true_eq_false, if_false, Prod.mk.injEq,
          Except.ok.injEq] at h2
        obtain ⟨h3, h4⟩ := h2
        subst h3
        subst h4
        exact ⟨rfl, rfl, lookupKey_insertKey_self c cid _⟩
      · simp only [select_option, h, ne_eq, hf, not_false_eq_true, if_true, Prod.mk.injEq,
          Except.ok.injEq] at h2
        obtain ⟨h3, h4⟩ := h2
        subst h3
        subst h4
        exact ⟨rfl, rfl, lookupKey_insertKey_self c cid _⟩

/-- Witness for C4 (amended) at the concrete out-of-range selection 7. -/
theorem select_option_stores_argument_unvalidated_witness :
    lookupKey [("C1", rsWithOptions)] "C1" = some rsWithOptions ∧
    ({ rsWithOptions with selected_option := some 7 } : GeneratedRoleSet).selected_option =
      some 7 ∧
    ({ rsWithOptions with selected_option := some 7 } : GeneratedRoleSet).role_options =
      rsWithOptions.role_options ∧
    lookupKey [("C1", ({ rsWithOptions with selected_option := some 7 } : GeneratedRoleSet))]
      "C1" = some { rsWithOptions with selected_option := some 7 } := by
  have h2 := (select_option_stores_argument_unvalidated [("C1", rsWithOptions)] "C1" 7 none).2
    rsWithOptions { rsWithOptions with selected_option := some 7 }
    [("C1", ({ rsWithOptions with selected_option := some 7 } : GeneratedRoleSet))] rfl rfl
  exact ⟨rfl, h2.1, h2.2.1, h2.2.2⟩

/-! ### C5 -/

theorem insertKey_length_new {α : Type} (c : List (String × α)) (k : String) (v : α)
    (h : lookupKey c k = none) : (insertKey c k v).length = c.length + 1 := by
  induction c with
  | nil => rfl
  | cons hd tl ih =>
    obtain ⟨k', v'⟩ := hd
    by_cases hk : k' = k
    · simp [lookupKey, hk] at h
    · simp only [lookupKey, hk, if_false] at h
      simp [insertKey, hk, ih h]

theorem length_filter_not_compl {α : Type} (p : α → Bool) (l : List α) :
    (l.filter p).length + (l.filter (fun a => !(p a))).length = l.length := by
  induction l with
  | nil => rfl
  | cons a l ih =>
    cases hp : p a
    · simp [List.filter_cons, hp]
      omega
    · simp [List.filter_cons, hp]
      omega

/-- Under distinct ids, the per-task outcome list of the batch equals the
outcome each id would get against the starting cache: generating one id never
reads or disturbs another id's cache entry. -/
theorem runBatchResults_eq_map {α : Type}
    (gen : List (String × α) → String → Except String α × List (String × α))
    (hres : ∀ c c2 i, lookupKey c i = lookupKey c2 i → (gen c i).1 = (gen c2 i).1)
    (hframe : ∀ c i j, j ≠ i → lookupKey (gen c i).2 j = lookupKey c j) :
    ∀ (ids : List String) (c0 c : List (String × α)),
      ids.Nodup → (∀ j, j ∈ ids → lookupKey c j = lookupKey c0 j) →
      (runBatchResults gen c ids).1 = ids.map (fun i => (gen c0 i).1) := by
  intro ids
  induction ids with
  | nil => intro c0 c _ _; rfl
  | cons i rest ih =>
    intro c0 c hnd hagree
    have hi : lookupKey c i = lookupKey c0 i := hagree i (List.mem_cons_self i rest)
    have hr1 : (gen c i).1 = (gen c0 i).1 := hres c c0 i hi
    have hnd' := (List.nodup_cons.mp hnd).2
    have hni := (List.nodup_cons.mp hnd).1
    have hagree' : ∀ j, j ∈ rest → lookupKey (gen c i).2 j = lookupKey c0 j := by
      intro j hj
      have hji : j ≠ i := by intro h; exact hni (h ▸ hj)
      rw [hframe c i j hji]
      exact hagree j (List.mem_cons_of_mem i hj)
    simp only [runBatchResults, List.map_cons]
    rw [hr1, ih c0 (gen c i).2 hnd' hagree']

/-- Size and absence facts about the dict-building loop when the ids are
distinct and none of them is already a key of the accumulator. -/
theorem collectResults_length_absent {α : Type} (f : String → Except String α) :
    ∀ (ids : List String) (generated : List (String × α)),
      ids.Nodup → (∀ i, i ∈ ids → lookupKey generated i = none) →
      (collectResults ids (ids.map (fun i => f i)) generated).length =
        generated.length + (ids.filter (fun i => exceptIsOk (f i))).length ∧
      ∀ j, exceptIsOk (f j) = false → lookupKey generated j = none →
        lookupKey (collectResults ids (ids.map (fun i => f i)) generated) j = none := by
  intro ids
  induction ids with
  | nil =>
    intro g _ _
    exact ⟨by simp [collectResults], fun j _ hg => hg⟩
  | cons i rest ih =>
    intro g hnd hdisj
    have hnd' := (List.nodup_cons.mp hnd).2
    have hni := (List.nodup_cons.mp hnd).1
    cases hf : f i with
    | ok v =>
      have hgi : lookupKey g i = none := hdisj i (List.mem_cons_self i rest)
      have hdisj' : ∀ i2, i2 ∈ rest → lookupKey (insertKey g i v) i2 = none := by
        intro i2 hi2
        have hne : i2 ≠ i := by intro h; exact hni (h ▸ hi2)
        rw [lookupKey_insertKey_ne g i i2 v hne]
        exact hdisj i2 (List.mem_cons_of_mem i hi2)
      obtain ⟨ihlen, ihabs⟩ := ih (insertKey g i v) hnd' hdisj'
      have hoki : exceptIsOk (f i) = true := by rw [hf]; rfl
      constructor
      · simp only [List.map_cons, collectResults, hf]
        rw [ihlen, insertKey_length_new g i v hgi]
        simp [List.filter_cons, hoki]
        omega
      · intro j hj hgj
        have hji : j ≠ i := by
          intro h
          rw [h, hoki] at hj
          exact Bool.noConfusion hj
        simp only [List.map_cons, collectResults, hf]
        refine ihabs j hj ?_
        rw [lookupKey_insertKey_ne g i j v hji]
        exact hgj
    | error e =>
      obtain ⟨ihlen, ihabs⟩ :=
        ih g hnd' (fun i2 hi2 => hdisj i2 (List.mem_cons_of_mem i hi2))
      have hoki : exceptIsOk (f i) = false := by rw [hf]; rfl
      constructor
      · simp only [List.map_cons, collectResults, hf]
        rw [ihlen]
        simp [List.filter_cons, hoki]
      · intro j hj hgj
        simp only [List.map_cons, collectResults, hf]
        exact ihabs j hj hgj

theorem resolveBatchIds_some_ne_nil (dp : DataProcessor) (ids : List String) (h : ids ≠ []) :
    resolveBatchIds dp (some ids) false = Except.ok ids := by
  cases ids with
  | nil => exact absurd rfl h
  | cons a l => rfl

/-- Counterexample to C5 as stated: for the duplicate list ["C1", "C1"] with no
failing gateway call, the batch result is keyed by id and holds a single entry,
not the claimed N - |failed| = 2. -/
theorem batch_duplicate_ids_cex :
    ((["C1", "C1"] : List String).filter
        (fun i => !(exceptIsOk (generate_single_role envOk [] i false).1))) = [] ∧
    (generate_batch_roles envOk [] (some ["C1", "C1"]) false).1 =
      Except.ok [("C1", roleRegen)] ∧
    (["C1", "C1"] : List String).length = 2 :=
  ⟨rfl, rfl, rfl⟩

/-- C5 (amended): for every NONEMPTY list of DISTINCT cluster ids, batch
generation never raises, the returned mapping has exactly N minus the number of
ids whose individual generation attempt fails (against the starting cache)
entries, and every failed id is absent from the mapping. The original claim is
additionally false for lists with duplicate ids (the mapping is keyed by id,
collapsing duplicates) and for the empty list (which raises ValueError). Holds
for both orchestrators. -/
theorem batch_generate_excludes_failures :
    ∀ (env : Env) (ids : List String), ids ≠ [] → ids.Nodup →
      (∀ (c : RoleCache),
        exceptIsOk (generate_batch_roles env c (some ids) false).1 = true ∧
        ∀ res, (generate_batch_roles env c (some ids) false).1 = Except.ok res →
          res.length = ids.length -
            (ids.filter
              (fun i => !(exceptIsOk (generate_single_role env c i false).1))).length ∧
          ∀ j, exceptIsOk (generate_single_role env c j false).1 = false →
            lookupKey res j = none) ∧
      (∀ (c : RoleSetCache),
        exceptIsOk (batch_generate_multiple env c (some ids) false).1 = true ∧
        ∀ res, (batch_generate_multiple env c (some ids) false).1 = Except.ok res →
          res.length = ids.length -
            (ids.filter
              (fun i => !(exceptIsOk (generate_multiple_options env c i false).1))).length ∧
          ∀ j, exceptIsOk (generate_multiple_options env c j false).1 = false →
            lookupKey res j = none) := by
  intro env ids hne hnd
  constructor
  · intro c
    have hrb : generate_batch_roles env c (some ids) false =
        (Except.ok (collectResults ids
          (runBatchResults (fun c2 cid => generate_single_role env c2 cid false) c ids).1 []),
         (runBatchResults (fun c2 cid => generate_single_role env c2 cid false) c ids).2) := by
      simp only [generate_batch_roles, resolveBatchIds_some_ne_nil env.dp ids hne]
    have hmap := runBatchResults_eq_map
      (fun c2 cid => generate_single_role env c2 cid false)
      (fun c2 c3 i h => generate_single_role_res_congr env c2 c3 i h)
      (fun c2 i j hji => generate_single_role_frame env c2 i false j hji)
      ids c c hnd (fun j _ => rfl)
    obtain ⟨hlen, habs⟩ := collectResults_length_absent
      (fun i => (generate_single_role env c i false).1) ids [] hnd (fun i _ => rfl)
    constructor
    · rw [hrb]
      rfl
    · intro res hresok
      rw [hrb] at hresok
      simp only [Except.ok.injEq] at hresok
      subst hresok
      rw [hmap]
      constructor
      · rw [hlen]
        have hc := length_filter_not_compl
          (fun i => exceptIsOk (generate_single_role env c i false).1) ids
        simp only [List.length_nil, Nat.zero_add]
        omega
      · intro j hj
        exact habs j hj rfl
  · intro c
    have hrb : batch_generate_multiple env c (some ids) false =
        (Except.ok (collectResults ids
          (runBatchResults (fun c2 cid => generate_multiple_options env c2 cid false) c ids).1 []),
         (runBatchResults (fun c2 cid => generate_multiple_options env c2 cid false) c ids).2) := by
      simp only [batch_generate_multiple, resolveBatchIds_some_ne_nil env.dp ids hne]
    have hmap := runBatchResults_eq_map
      (fun c2 cid => generate_multiple_options env c2 cid false)
      (fun c2 c3 i h => generate_multiple_options_res_congr env c2 c3 i h)
      (fun c2 i j hji => generate_multiple_options_frame env c2 i false j hji)
      ids c c hnd (fun j _ => rfl)
    obtain ⟨hlen, habs⟩ := collectResults_length_absent
      (fun i => (generate_multiple_options env c i false).1) ids [] hnd (fun i _ => rfl)
    constructor
    · rw [hrb]
      rfl
    · intro res hresok
      rw [hrb] at hresok
      simp only [Except.ok.injEq] at hresok
      subst hresok
      rw [hmap]
      constructor
      · rw [hlen]
        have hc := length_filter_not_compl
          (fun i => exceptIsOk (generate_multiple_options env c i false).1) ids
        simp only [List.length_nil, Nat.zero_add]
        omega
      · intro j hj
        exact habs j hj rfl

/-- Witness for C5 (amended): a two-id batch where C2's snapshot build fails
still returns successfully and the failed id is absent from the mapping. -/
theorem batch_generate_excludes_failures_witness :
    (["C1", "C2"] ≠ ([] : List String)) ∧ (["C1", "C2"] : List String).Nodup ∧
    exceptIsOk (generate_batch_roles envOk [] (some ["C1", "C2"]) false).1 = true ∧
    lookupKey [("C1", roleRegen)] "C2" = none := by
  have h := batch_generate_excludes_failures envOk ["C1", "C2"] (by decide) (by decide)
  obtain ⟨hok, hres⟩ := h.1 ([] : RoleCache)
  refine ⟨by decide, by decide, hok, ?_⟩
  have h2 := hres [("C1", roleRegen)] rfl
  exact h2.2 "C2" rfl

/-! ### C6 -/

/-- C6: when the response body neither parses as JSON directly nor contains a
brace-delimited span (prose only), the json-mode gateway parse does not raise:
it returns the fallback mapping whose role_name is the non-empty
"Role_" + 20-character prompt prefix, whose description is the raw response
truncated to 200 characters, whose rationale is the fixed placeholder, and
whose risk_level is MEDIUM. -/
theorem gateway_fallback_on_prose :
    ∀ (jparse : String → Option LLMMap) (prompt content : String),
      jparse content = none → braceSpan content = none →
      generate_direct_json jparse prompt content = mkFallback prompt content ∧
      (generate_direct_json jparse prompt content).role_name =
        some ("Role_" ++ prompt.take 20) ∧
      ("Role_" ++ prompt.take 20) ≠ "" ∧
      (generate_direct_json jparse prompt content).description =
        some (if content.length > 200 then content.take 200 else content) ∧
      (generate_direct_json jparse prompt content).rationale =
        some "Generated from LLM response" ∧
      (generate_direct_json jparse prompt content).risk_level = some "MEDIUM" := by
  intro jparse prompt content h1 h2
  have hmain : generate_direct_json jparse prompt content = mkFallback prompt content := by
    simp [generate_direct_json, h1, h2]
  refine ⟨hmain, ?_, ?_, ?_, ?_, ?_⟩
  · rw [hmain]; rfl
  · intro h
    have hl := congrArg String.length h
    rw [String.length_append] at hl
    have h5 : ("Role_" : String).length = 5 := rfl
    have h0 : ("" : String).length = 0 := rfl
    omega
  · rw [hmain]; rfl
  · rw [hmain]; rfl
  · rw [hmain]; rfl

/-- Witness for C6 on a concrete prose body with a parser that fails on it. -/
theorem gateway_fallback_on_prose_witness :
    braceSpan "I cannot answer that in JSON, sorry." = none ∧
    (generate_direct_json (fun _ => none) "PROMPT TEXT"
        "I cannot answer that in JSON, sorry.").risk_level = some "MEDIUM" ∧
    (generate_direct_json (fun _ => none) "PROMPT TEXT"
        "I cannot answer that in JSON, sorry.").role_name =
      some ("Role_" ++ ("PROMPT TEXT" : String).take 20) := by
  have h := gateway_fallback_on_prose (fun _ => none) "PROMPT TEXT"
    "I cannot answer that in JSON, sorry." rfl rfl
  exact ⟨rfl, h.2.2.2.2.2, h.2.1⟩

/-! ### C7 -/

/-- C7: every successfully built snapshot has `entitlement_count` equal to the
length of its entitlement list and contains only entitlement ids present in the
loaded catalog; and when the cluster row exists and the user table is loaded,
the snapshot build succeeds regardless of the catalog (so a row referencing an
id absent from the catalog yields a snapshot with that id omitted, by the first
part, rather than an error). -/
theorem snapshot_invariant_and_lenient_join :
    ∀ (dp : DataProcessor) (cid : String),
      (∀ cd, process_cluster dp cid = Except.ok cd →
        cd.entitlement_count = cd.core_entitlements.length ∧
        ∀ e, e ∈ cd.core_entitlements →
          (lookupKey dp.entitlement_metadata e.id).isSome = true) ∧
      (∀ rows row users, dp.cluster_summary = some rows →
        dp.user_metadata = some users →
        rows.find? (fun r => r.cluster_id == cid) = some row →
        exceptIsOk (process_cluster dp cid) = true) := by
  intro dp cid
  constructor
  · intro cd h
    cases hcs : dp.cluster_summary with
    | none => simp [process_cluster, hcs] at h
    | some rows =>
      cases hfind : rows.find? (fun r => r.cluster_id == cid) with
      | none => simp [process_cluster, hcs, hfind] at h
      | some row =>
        cases hum : dp.user_metadata with
        | none => simp [process_cluster, hcs, hfind, hum] at h
        | some users =>
          simp only [process_cluster, hcs, hfind, hum, Except.ok.injEq] at h
          subst h
          refine ⟨rfl, ?_⟩
          intro e he
          simp only [mkClusterData] at he
          rw [List.mem_filterMap] at he
          obtain ⟨a, ha, hfa⟩ := he
          cases hl : lookupKey dp.entitlement_metadata a with
          | none => rw [hl] at hfa; simp at hfa
          | some meta =>
            rw [hl] at hfa
            simp only [Option.some.injEq] at hfa
            subst hfa
            simp [hl]
  · intro rows row users hcs hum hfind
    simp [process_cluster, hcs, hfind, hum, exceptIsOk]

/-- The snapshot dpTest yields for C1: the unknown id E2 is silently omitted. -/
def cdC1 : ClusterData :=
  mkClusterData "C1"
    [{ id := "E1", name := "Read DB", description := "Read access to database" }] usC1

/-- Witness for C7: C1's row references E1 and the unknown E2; the build
succeeds, the count matches, and E2 is absent from the snapshot. -/
theorem snapshot_invariant_witness :
    process_cluster dpTest "C1" = Except.ok cdC1 ∧
    lookupKey dpTest.entitlement_metadata "E2" = none ∧
    cdC1.entitlement_count = cdC1.core_entitlements.length ∧
    exceptIsOk (process_cluster dpTest "C1") = true := by
  have h : process_cluster dpTest "C1" = Except.ok cdC1 := rfl
  refine ⟨h, rfl, ?_, ?_⟩
  · exact ((snapshot_invariant_and_lenient_join dpTest "C1").1 cdC1 h).1
  · exact (snapshot_invariant_and_lenient_join dpTest "C1").2
      [{ cluster_id := "C1", core_entitlements := "E1, E2" }]
      { cluster_id := "C1", core_entitlements := "E1, E2" }
      [{ cluster_id := "C1", job_title := "Analyst", department := "Finance" }]
      rfl rfl rfl

/-! ### C8 -/

/-- C8: review on an ungenerated cluster id raises the not-found ValueError and
changes nothing; on a cached record it sets `reviewed := true` and
`approved := <given>` on that record in place (the cache afterwards holds the
mutated record, which is also returned). The single-role variant accepts but
never stores feedback (GeneratedRole has no feedback field); the multi-option
variant stores it exactly when it is truthy. -/
theorem review_updates_cached_record :
    ∀ (cid : String) (ap : Bool) (fb : Option String),
      (∀ (c : RoleCache), lookupKey c cid = none →
        review_role c cid ap fb =
          (Except.error ("No generated role found for cluster " ++ cid), c)) ∧
      (∀ (c : RoleCache) (r : GeneratedRole), lookupKey c cid = some r →
        review_role c cid ap fb =
          (Except.ok { r with reviewed := true, approved := ap },
           insertKey c cid { r with reviewed := true, approved := ap }) ∧
        lookupKey (review_role c cid ap fb).2 cid =
          some { r with reviewed := true, approved := ap }) ∧
      (∀ (c : RoleSetCache), lookupKey c cid = none →
        review_role_set c cid ap fb =
          (Except.error ("No generated roles found for cluster " ++ cid), c)) ∧
      (∀ (c : RoleSetCache) (rs : GeneratedRoleSet), lookupKey c cid = some rs →
        ((fb = none ∨ fb = some "") →
          review_role_set c cid ap fb =
            (Except.ok { rs with reviewed := true, approved := ap },
             insertKey c cid { rs with reviewed := true, approved := ap })) ∧
        (∀ f, fb = some f → f ≠ "" →
          review_role_set c cid ap fb =
            (Except.ok { rs with reviewed := true, approved := ap, feedback := some f },
             insertKey c cid { rs with reviewed := true, approved := ap, feedback := some f })) ∧
        (∀ rs' c2, review_role_set c cid ap fb = (Except.ok rs', c2) →
          lookupKey c2 cid = some rs' ∧ rs'.reviewed = true ∧ rs'.approved = ap)) := by
  intro cid ap fb
  refine ⟨?_, ?_, ?_, ?_⟩
  · intro c h
    simp [review_role, h]
  · intro c r h
    refine ⟨by simp [review_role, h], ?_⟩
    simp [review_role, h, lookupKey_insertKey_self]
  · intro c h
    simp [review_role_set, h]
  · intro c rs h
    refine ⟨?_, ?_, ?_⟩
    · intro hfb
      rcases hfb with hfb | hfb <;> subst hfb <;> simp [review_role_set, h]
    · intro f hfb hfne
      subst hfb
      simp [review_role_set, h, hfne]
    · intro rs' c2 h2
      cases fb with
      | none =>
        simp only [review_role_set, h, Prod.mk.injEq, Except.ok.injEq] at h2
        obtain ⟨h3, h4⟩ := h2
        subst h3
        subst h4
        exact ⟨lookupKey_insertKey_self c cid _, rfl, rfl⟩
      | some f =>
        by_cases hf : f = ""
        · subst hf
          simp only [review_role_set, h, ne_eq, not_true_eq_false, if_false, Prod.mk.injEq,
            Except.ok.injEq] at h2
          obtain ⟨h3, h4⟩ := h2
          subst h3
          subst h4
          exact ⟨lookupKey_insertKey_self c cid _, rfl, rfl⟩
        · simp only [review_role_set, h, ne_eq, hf, not_false_eq_true, if_true, Prod.mk.injEq,
            Except.ok.injEq] at h2
          obtain ⟨h3, h4⟩ := h2
          subst h3
          subst h4
          exact ⟨lookupKey_insertKey_self c cid _, rfl, rfl⟩

def rsReviewedFb : GeneratedRoleSet :=
  { rsCached with reviewed := true, approved := false, feedback := some "needs work" }

/-- Witness for C8: not-found failure on the empty cache, a successful approve
on a cached record, and feedback storage in the multi-option variant. -/
theorem review_updates_cached_record_witness :
    review_role ([] : RoleCache) "C1" true none =
      (Except.error "No generated role found for cluster C1", []) ∧
    review_role [("C1", roleCached)] "C1" true none =
      (Except.ok { roleCached with reviewed := true, approved := true },
       [("C1", { roleCached with reviewed := true, approved := true })]) ∧
    review_role_set [("C1", rsCached)] "C1" false (some "needs work") =
      (Except.ok rsReviewedFb, [("C1", rsReviewedFb)]) := by
  refine ⟨?_, ?_, ?_⟩
  · exact (review_updates_cached_record "C1" true none).1 [] rfl
  · exact ((review_updates_cached_record "C1" true none).2.1 [("C1", roleCached)]
      roleCached rfl).1
  · exact (((review_updates_cached_record "C1" false (some "needs work")).2.2.2
      [("C1", rsCached)] rsCached rfl).2.1 "needs work" rfl (by decide))

/-! ### C9 -/

/-- C9: when the gateway mapping carries a `risk_level` value that is not one
of the exact member strings (e.g. lowercase "medium"), the single-role generate
raises the enum conversion ValueError and adds nothing to the cache; a mapping
with the key absent is defaulted to MEDIUM, and a valid value is used as-is
(never defaulted). -/
theorem invalid_risk_level_raises :
    ∀ (env : Env) (c : RoleCache) (cid : String) (cd : ClusterData) (m : LLMMap),
      lookupKey c cid = none →
      process_cluster env.dp cid = Except.ok cd →
      env.llm (create_role_generation_prompt cd) = Except.ok m →
      (∀ s, m.risk_level = some s → riskLevelOfString s = none →
        generate_single_role env c cid false =
          (Except.error "ValueError: not a valid RiskLevel", c)) ∧
      (m.risk_level = none →
        ∀ r c2, generate_single_role env c cid false = (Except.ok r, c2) →
          r.risk_level = RiskLevel.MEDIUM ∧ c2 = insertKey c cid r) ∧
      (∀ s rl, m.risk_level = some s → riskLevelOfString s = some rl →
        ∀ r c2, generate_single_role env c cid false = (Except.ok r, c2) →
          r.risk_level = rl ∧ c2 = insertKey c cid r) := by
  intro env c cid cd m hl hp hm
  refine ⟨?_, ?_, ?_⟩
  · intro s hs hrs
    simp [generate_single_role, hl, generate_single_role_uncached, hp, hm, hs, hrs]
  · intro hnone r c2 h
    simp only [generate_single_role, hl, generate_single_role_uncached, hp, hm, hnone,
      Option.getD_none, riskLevelOfString, Prod.mk.injEq, Except.ok.injEq] at h
    obtain ⟨h1, h2⟩ := h
    subst h1
    subst h2
    exact ⟨rfl, rfl⟩
  · intro s rl hs hrs r c2 h
    simp only [generate_single_role, hl, generate_single_role_uncached, hp, hm, hs,
      Option.getD_some, hrs, Prod.mk.injEq, Except.ok.injEq] at h
    obtain ⟨h1, h2⟩ := h
    subst h1
    subst h2
    exact ⟨rfl, rfl⟩

def mBadRisk : LLMMap := { role_name := some "X", risk_level := some "medium" }

def mNoRisk : LLMMap := { role_name := some "X" }

def envBadRisk : Env := { dp := dpTest, llm := fun _ => Except.ok mBadRisk, now := 3 }

def envNoRisk : Env := { dp := dpTest, llm := fun _ => Except.ok mNoRisk, now := 3 }

/-- The record produced under `envNoRisk` (risk_level key absent). -/
def roleNoRisk : GeneratedRole :=
  { cluster_id := "C1", role_name := "X", description := "", rationale := ""
    risk_level := RiskLevel.MEDIUM
    entitlements := [{ id := "E1", name := "Read DB", description := "Read access to database" }]
    user_summary := usC1, generated_at := 3 }

/-- Witness for C9: lowercase "medium" raises and leaves the cache empty; an
absent risk_level key defaults the record to MEDIUM. -/
theorem invalid_risk_level_raises_witness :
    riskLevelOfString "medium" = none ∧
    generate_single_role envBadRisk [] "C1" false =
      (Except.error "ValueError: not a valid RiskLevel", []) ∧
    roleNoRisk.risk_level = RiskLevel.MEDIUM := by
  refine ⟨rfl, ?_, ?_⟩
  · exact (invalid_risk_level_raises envBadRisk [] "C1" cdC1
      mBadRisk rfl rfl rfl).1 "medium" rfl rfl
  · exact ((invalid_risk_level_raises envNoRisk [] "C1" cdC1
      mNoRisk rfl rfl rfl).2.1 rfl roleNoRisk
      [("C1", roleNoRisk)] rfl).1

/-! ### C10 -/

theorem inflightCount_init (ids : List String) :
    inflightCount (ids.map (fun _ => BatchPhase.pending)) = 0 := by
  induction ids with
  | nil => rfl
  | cons a l ih => simp [inflightCount, List.countP_cons]

/-- C10: in every state the batch scheduler can reach, at most
`concurrent_limit` gateway calls are in flight simultaneously: the semaphore
acquire guard admits a new in-flight task only below the limit, and the
gateway call happens only while holding the semaphore. -/
theorem semaphore_bounds_inflight :
    ∀ (limit : Nat) (ids : List String) (s : List BatchPhase),
      BatchReachable limit ids s → inflightCount s ≤ limit := by
  intro limit ids s h
  unfold BatchReachable at h
  induction h with
  | refl =>
    rw [inflightCount_init]
    exact Nat.zero_le limit
  | tail hsteps hstep ih =>
    cases hstep with
    | acquire l r hlt =>
      have h1 : inflightCount (l ++ BatchPhase.pending :: r) =
          inflightCount l + inflightCount r := by
        simp [inflightCount, List.countP_append, List.countP_cons]
      have h2 : inflightCount (l ++ BatchPhase.inflight :: r) =
          inflightCount l + inflightCount r + 1 := by
        simp [inflightCount, List.countP_append, List.countP_cons]
        omega
      omega
    | finish l r =>
      have h1 : inflightCount (l ++ BatchPhase.inflight :: r) =
          inflightCount l + inflightCount r + 1 := by
        simp [inflightCount, List.countP_append, List.countP_cons]
        omega
      have h2 : inflightCount (l ++ BatchPhase.done :: r) =
          inflightCount l + inflightCount r := by
        simp [inflightCount, List.countP_append, List.countP_cons]
      omega

/-- Witness for C10: with limit 2 over three tasks, the state with one call in
flight is reachable and within the bound. -/
theorem semaphore_bounds_inflight_witness :
    BatchReachable 2 ["C1", "C2", "C3"]
      [BatchPhase.inflight, BatchPhase.pending, BatchPhase.pending] ∧
    inflightCount [BatchPhase.inflight, BatchPhase.pending, BatchPhase.pending] ≤ 2 := by
  have hstep : SemStep 2 [BatchPhase.pending, BatchPhase.pending, BatchPhase.pending]
      [BatchPhase.inflight, BatchPhase.pending, BatchPhase.pending] :=
    SemStep.acquire [] [BatchPhase.pending, BatchPhase.pending] (by decide)
  have hreach : BatchReachable 2 ["C1", "C2", "C3"]
      [BatchPhase.inflight, BatchPhase.pending, BatchPhase.pending] :=
    Relation.ReflTransGen.single hstep
  exact ⟨hreach, semaphore_bounds_inflight 2 ["C1", "C2", "C3"] _ hreach⟩

end RBAC
